import Mathlib

/-!
# CNCJobManager — verification of the sheet-status subsystem

Shallow embedding of the sheet-status store, the HTTP route handlers
(`src/server/routes.ts`), the broadcast fan-out, and the client-side
optimistic-update reconciler (`JobPopup` component).

Statuses are the literal strings `"pending"`, `"cut"`, `"skip"` stored in the
`sheet_statuses` text arrays of `job_materials` and `recut_entries`
(`src/shared/schema.ts`).
-/

namespace CNC

/-- The three recognized sheet status strings (schema comment:
`Array of 'cut', 'skip', 'pending'`). -/
def validStatuses : List String := ["pending", "cut", "skip"]

/-- Number of `"cut"` entries in a status sequence; this is what both the
server recomputation and the client display (`filter(s => s === 'cut').length`)
count. -/
def countCut (ss : List String) : Nat := ss.countP (fun s => s == "cut")

/-- A row of `job_materials` (schema.ts): `totalSheets`, derived
`completedSheets`, and the per-sheet status text array. -/
structure Material where
  totalSheets : Nat
  completedSheets : Nat
  sheetStatuses : List String
deriving DecidableEq, Repr

/-- A row of `recut_entries` (schema.ts): owning material, `quantity`,
derived `completedSheets`, and its own status text array. -/
structure Recut where
  materialId : Nat
  quantity : Nat
  completedSheets : Nat
  sheetStatuses : List String
deriving DecidableEq, Repr

/-- Storage-level failure taxonomy (spec §7). -/
inductive StoreError where
  | NotFound
  | OutOfRange
  | InvalidArgument
deriving DecidableEq, Repr

deriving instance DecidableEq for Except

/-- Modelled from the spec: `storage.addMaterialToJob` / material creation is
in `src/server/storage.ts`, which is not part of the provided sources. Spec §3:
"a material's status sequence is created with all-pending entries when the
material is created". -/
def createMaterial (totalSheets : Nat) : Material :=
  { totalSheets := totalSheets
    completedSheets := 0
    sheetStatuses := List.replicate totalSheets "pending" }

/-- Modelled from the spec: `storage.addSheetsToMaterial` is in
`src/server/storage.ts`, absent from the provided sources. Spec §4.1
`addSheets`: "appends `count` new pending entries" (non-recut case), resizing
`totalSheets` consistently (§3). -/
def Material.addSheets (m : Material) (count : Nat) : Material :=
  { totalSheets := m.totalSheets + count
    completedSheets := m.completedSheets
    sheetStatuses := m.sheetStatuses ++ List.replicate count "pending" }

/-- Modelled from the spec: `storage.updateSheetStatus` (single-material part)
is in `src/server/storage.ts`, absent from the provided sources. Spec §4.1
`setSheetStatus`: sets `sheetStatuses[sheetIndex] = status`, recomputes
`completedSheets = count(sheetStatuses == cut)`; OutOfRange if the index is
outside `0 <= sheetIndex < totalSheets`, InvalidArgument if the status is not
one of the three values. -/
def Material.setSheetStatus (m : Material) (sheetIndex : Nat) (status : String) :
    Except StoreError Material :=
  if sheetIndex < m.totalSheets then
    if status ∈ validStatuses then
      let ss := m.sheetStatuses.set sheetIndex status
      .ok { m with sheetStatuses := ss, completedSheets := countCut ss }
    else
      .error .InvalidArgument
  else
    .error .OutOfRange

/-- Modelled from the spec: `storage.deleteSheet` is in
`src/server/storage.ts`, absent from the provided sources. Spec §4.1
`deleteSheet`: "removes the index from the sequence, shifting subsequent
entries left by one, and decrements `totalSheets`"; the derived count is kept
consistent (§8: the completed-count invariant holds after every mutation). -/
def Material.deleteSheet (m : Material) (sheetIndex : Nat) :
    Except StoreError Material :=
  if sheetIndex < m.totalSheets then
    let ss := m.sheetStatuses.eraseIdx sheetIndex
    .ok { totalSheets := m.totalSheets - 1
          completedSheets := countCut ss
          sheetStatuses := ss }
  else
    .error .OutOfRange

/-- Modelled from the spec: `storage.addRecutEntry` is in
`src/server/storage.ts`, absent from the provided sources. Spec §4.1
`addRecutEntry`: "creates a new recut entry with an all-pending sequence of
length `quantity`". -/
def createRecut (materialId quantity : Nat) : Recut :=
  { materialId := materialId
    quantity := quantity
    completedSheets := 0
    sheetStatuses := List.replicate quantity "pending" }

/-- Modelled from the spec: `storage.updateRecutSheetStatus` (single-entry
part) is in `src/server/storage.ts`, absent from the provided sources. Spec
§4.1 `setRecutSheetStatus`: "same contract, scoped to a recut entry's own
sequence and its own `quantity` bound". -/
def Recut.setSheetStatus (r : Recut) (sheetIndex : Nat) (status : String) :
    Except StoreError Recut :=
  if sheetIndex < r.quantity then
    if status ∈ validStatuses then
      let ss := r.sheetStatuses.set sheetIndex status
      .ok { r with sheetStatuses := ss, completedSheets := countCut ss }
    else
      .error .InvalidArgument
  else
    .error .OutOfRange

/-- The length invariant: `sheetStatuses.length == totalSheets` (spec §3). -/
def Material.lengthInv (m : Material) : Prop :=
  m.sheetStatuses.length = m.totalSheets

instance (m : Material) : Decidable m.lengthInv := by
  unfold Material.lengthInv; infer_instance

/-- The derived-count invariant: `completedSheets == count(sheetStatuses == cut)`
(spec §8). -/
def Material.countInv (m : Material) : Prop :=
  m.completedSheets = countCut m.sheetStatuses

instance (m : Material) : Decidable m.countInv := by
  unfold Material.countInv; infer_instance

/-- The recut derived-count invariant. -/
def Recut.countInv (r : Recut) : Prop :=
  r.completedSheets = countCut r.sheetStatuses

instance (r : Recut) : Decidable r.countInv := by
  unfold Recut.countInv; infer_instance

/-! ## Storage: the id-indexed store behind `storage.*` calls -/

/-- The persisted state the routes mutate: materials and recut entries keyed
by their serial ids (`job_materials.id`, `recut_entries.id`). -/
structure Store where
  materials : List (Nat × Material)
  recuts : List (Nat × Recut)
  nextRecutId : Nat
deriving DecidableEq, Repr

def Store.getMaterial (st : Store) (id : Nat) : Option Material :=
  st.materials.lookup id

def Store.setMaterial (st : Store) (id : Nat) (m : Material) : Store :=
  { st with materials := st.materials.map (fun p => if p.1 = id then (id, m) else p) }

def Store.getRecut (st : Store) (id : Nat) : Option Recut :=
  st.recuts.lookup id

def Store.setRecut (st : Store) (id : Nat) (r : Recut) : Store :=
  { st with recuts := st.recuts.map (fun p => if p.1 = id then (id, r) else p) }

def Store.insertRecut (st : Store) (r : Recut) : Store :=
  { st with recuts := st.recuts ++ [(st.nextRecutId, r)]
            nextRecutId := st.nextRecutId + 1 }

/-- Modelled from the spec: `storage.updateSheetStatus` is in
`src/server/storage.ts`, absent from the provided sources; spec §4.1
`setSheetStatus` with NotFound when the material id is absent. -/
def Store.updateSheetStatus (st : Store) (id sheetIndex : Nat) (status : String) :
    Except StoreError Store :=
  match st.getMaterial id with
  | none => .error .NotFound
  | some m => (m.setSheetStatus sheetIndex status).map (st.setMaterial id)

/-- Modelled from the spec: `storage.updateRecutSheetStatus` is in
`src/server/storage.ts`, absent from the provided sources; spec §4.1
`setRecutSheetStatus` with NotFound when the recut id is absent. -/
def Store.updateRecutSheetStatus (st : Store) (id sheetIndex : Nat) (status : String) :
    Except StoreError Store :=
  match st.getRecut id with
  | none => .error .NotFound
  | some r => (r.setSheetStatus sheetIndex status).map (st.setRecut id)

/-- Modelled from the spec: `storage.addSheetsToMaterial` is in
`src/server/storage.ts`, absent from the provided sources; spec §4.1
`addSheets`: appends pending entries to the material when `isRecut` is false,
creates a recut entry of `quantity = count` when true. -/
def Store.addSheetsToMaterial (st : Store) (id count : Nat) (isRecut : Bool) :
    Except StoreError Store :=
  match st.getMaterial id with
  | none => .error .NotFound
  | some m =>
    if isRecut then
      .ok (st.insertRecut (createRecut id count))
    else
      .ok (st.setMaterial id (m.addSheets count))

/-- Modelled from the spec: `storage.addRecutEntry` is in
`src/server/storage.ts`, absent from the provided sources; spec §4.1
`addRecutEntry`. -/
def Store.addRecutEntry (st : Store) (materialId quantity : Nat) :
    Except StoreError Store :=
  match st.getMaterial materialId with
  | none => .error .NotFound
  | some _ => .ok (st.insertRecut (createRecut materialId quantity))

/-- Modelled from the spec: `storage.deleteSheet` is in
`src/server/storage.ts`, absent from the provided sources; spec §4.1
`deleteSheet` with NotFound when the material id is absent. -/
def Store.deleteSheet (st : Store) (id sheetIndex : Nat) : Except StoreError Store :=
  match st.getMaterial id with
  | none => .error .NotFound
  | some m => (m.deleteSheet sheetIndex).map (st.setMaterial id)

/-- `storage.getRecutEntries(materialId)`: the recut entries belonging to a
material, in insertion order. -/
def Store.getRecutEntries (st : Store) (materialId : Nat) : List Recut :=
  (st.recuts.filter (fun p => p.2.materialId == materialId)).map (fun p => p.2)

/-! ## HTTP layer: the route handlers of `src/server/routes.ts` -/

structure HttpResponse where
  status : Nat
  message : String
deriving DecidableEq, Repr

/-- A WebSocket broadcast message: `{ type, data }` with `data` as a JSON
object, embedded as an association list of field names to stringified
values. -/
structure WsMessage where
  type : String
  data : List (String × String)
deriving DecidableEq, Repr

/-- What one route invocation produces: the HTTP response, the store after the
call, and the broadcasts it emitted (in order). -/
structure HandlerResult where
  response : HttpResponse
  store : Store
  broadcasts : List WsMessage
deriving DecidableEq, Repr

/-- The session attached to a request: `req.session?.user` (user id when
logged in). -/
structure Session where
  user : Option Nat
deriving DecidableEq, Repr

/-- routes.ts 35-40, `requireAuth`: respond 401 "Authentication required" when
`req.session?.user` is absent, otherwise continue to the handler. -/
def requireAuth (s : Session) : Option HttpResponse :=
  if s.user.isNone then some ⟨401, "Authentication required"⟩ else none

/-- A handler registered behind `requireAuth`: the middleware short-circuits
with its 401 before the handler body runs, so the store is untouched and no
broadcast happens. -/
def withAuth (sess : Session) (st : Store) (handler : Store → HandlerResult) :
    HandlerResult :=
  match requireAuth sess with
  | some resp => { response := resp, store := st, broadcasts := [] }
  | none => handler st

/-- routes.ts 298-311, `PUT /api/materials/:id/sheet-status`: body
`{sheetIndex, status}`; on success responds 200 and broadcasts
`sheet_status_updated` with data `{ id, sheetIndex, status }`; any thrown
error is caught and answered with 500 "Failed to update sheet status". -/
def putMaterialSheetStatus (st : Store) (id sheetIndex : Nat) (status : String) :
    HandlerResult :=
  match st.updateSheetStatus id sheetIndex status with
  | .ok st2 =>
      { response := ⟨200, "Sheet status updated"⟩
        store := st2
        broadcasts := [⟨"sheet_status_updated",
          [("id", toString id), ("sheetIndex", toString sheetIndex), ("status", status)]⟩] }
  | .error _ =>
      { response := ⟨500, "Failed to update sheet status"⟩, store := st, broadcasts := [] }

/-- routes.ts 279-296, `POST /api/materials/:materialId/sheets/:sheetIndex`:
same storage call, but the broadcast data is `{ materialId, sheetIndex,
status }`; errors are caught and answered with 500. -/
def postMaterialSheetStatus (st : Store) (materialId sheetIndex : Nat) (status : String) :
    HandlerResult :=
  match st.updateSheetStatus materialId sheetIndex status with
  | .ok st2 =>
      { response := ⟨200, "Sheet status updated"⟩
        store := st2
        broadcasts := [⟨"sheet_status_updated",
          [("materialId", toString materialId), ("sheetIndex", toString sheetIndex),
           ("status", status)]⟩] }
  | .error _ =>
      { response := ⟨500, "Failed to update sheet status"⟩, store := st, broadcasts := [] }

/-- routes.ts 417-431, `PUT /api/recuts/:id/sheet-status`: broadcasts
`recut_sheet_status_updated` with `{ recutId, sheetIndex, status }` on
success; 500 "Failed to update recut sheet status" on any error. -/
def putRecutSheetStatus (st : Store) (recutId sheetIndex : Nat) (status : String) :
    HandlerResult :=
  match st.updateRecutSheetStatus recutId sheetIndex status with
  | .ok st2 =>
      { response := ⟨200, "Recut sheet status updated"⟩
        store := st2
        broadcasts := [⟨"recut_sheet_status_updated",
          [("recutId", toString recutId), ("sheetIndex", toString sheetIndex),
           ("status", status)]⟩] }
  | .error _ =>
      { response := ⟨500, "Failed to update recut sheet status"⟩, store := st, broadcasts := [] }

/-- routes.ts 260-276, `POST /api/materials/:id/add-sheets`: body
`{additionalSheets, isRecut}`; rejects 400 when `!additionalSheets ||
additionalSheets < 1` (absent, zero, or below one) before any storage call;
no broadcast is emitted by this route. -/
def postAddSheets (st : Store) (materialId : Nat) (additionalSheets : Option Int)
    (isRecut : Bool) : HandlerResult :=
  match additionalSheets with
  | none =>
      { response := ⟨400, "Additional sheets must be a positive number"⟩
        store := st, broadcasts := [] }
  | some n =>
    if n = 0 ∨ n < 1 then
      { response := ⟨400, "Additional sheets must be a positive number"⟩
        store := st, broadcasts := [] }
    else
      match st.addSheetsToMaterial materialId n.toNat isRecut with
      | .ok st2 => { response := ⟨200, "Sheets added successfully"⟩, store := st2, broadcasts := [] }
      | .error _ => { response := ⟨500, "Failed to add sheets"⟩, store := st, broadcasts := [] }

/-- routes.ts 330-349, `POST /api/materials/:id/recuts`: body
`{quantity, reason}`; rejects 400 "Invalid recut quantity" when `!quantity ||
quantity < 1` before any storage call; on success broadcasts `recut_added`
with `{ materialId, quantity, reason }` (reason omitted when absent). -/
def postAddRecut (st : Store) (materialId : Nat) (quantity : Option Int)
    (reason : Option String) : HandlerResult :=
  match quantity with
  | none => { response := ⟨400, "Invalid recut quantity"⟩, store := st, broadcasts := [] }
  | some n =>
    if n = 0 ∨ n < 1 then
      { response := ⟨400, "Invalid recut quantity"⟩, store := st, broadcasts := [] }
    else
      match st.addRecutEntry materialId n.toNat with
      | .ok st2 =>
          { response := ⟨200, "Recut entry added successfully"⟩
            store := st2
            broadcasts := [⟨"recut_added",
              [("materialId", toString materialId), ("quantity", toString n)] ++
              (match reason with | some r => [("reason", r)] | none => [])⟩] }
      | .error _ =>
          { response := ⟨500, "Failed to add recut entry"⟩, store := st, broadcasts := [] }

/-- routes.ts 313-327, `DELETE /api/materials/:id/sheet/:sheetIndex`: on
success broadcasts `sheet_deleted` with `{ materialId, sheetIndex }`; 500 on
any error. -/
def deleteSheetRoute (st : Store) (materialId sheetIndex : Nat) : HandlerResult :=
  match st.deleteSheet materialId sheetIndex with
  | .ok st2 =>
      { response := ⟨200, "Sheet deleted successfully"⟩
        store := st2
        broadcasts := [⟨"sheet_deleted",
          [("materialId", toString materialId), ("sheetIndex", toString sheetIndex)]⟩] }
  | .error _ =>
      { response := ⟨500, "Failed to delete sheet"⟩, store := st, broadcasts := [] }

/-- routes.ts 352-361, `GET /api/materials/:id/recuts`: registered WITHOUT
`requireAuth`; returns the recut entries for the material. -/
def getMaterialRecuts (st : Store) (materialId : Nat) : HttpResponse × List Recut :=
  (⟨200, ""⟩, st.getRecutEntries materialId)

/-! The endpoints as registered (routes.ts): the five status-mutation routes
are behind `requireAuth`; the recut-list GET is not. -/

def apiPutMaterialSheetStatus (sess : Session) (st : Store) (id sheetIndex : Nat)
    (status : String) : HandlerResult :=
  withAuth sess st (fun s => putMaterialSheetStatus s id sheetIndex status)

def apiPutRecutSheetStatus (sess : Session) (st : Store) (recutId sheetIndex : Nat)
    (status : String) : HandlerResult :=
  withAuth sess st (fun s => putRecutSheetStatus s recutId sheetIndex status)

def apiPostAddSheets (sess : Session) (st : Store) (materialId : Nat)
    (additionalSheets : Option Int) (isRecut : Bool) : HandlerResult :=
  withAuth sess st (fun s => postAddSheets s materialId additionalSheets isRecut)

def apiPostAddRecut (sess : Session) (st : Store) (materialId : Nat)
    (quantity : Option Int) (reason : Option String) : HandlerResult :=
  withAuth sess st (fun s => postAddRecut s materialId quantity reason)

def apiDeleteSheet (sess : Session) (st : Store) (materialId sheetIndex : Nat) :
    HandlerResult :=
  withAuth sess st (fun s => deleteSheetRoute s materialId sheetIndex)

/-- `GET /api/materials/:id/recuts` as registered: no middleware consults the
session (the `sess` argument is ignored, as the route has no auth check). -/
def apiGetMaterialRecuts (_sess : Session) (st : Store) (materialId : Nat) :
    HttpResponse × List Recut :=
  getMaterialRecuts st materialId

/-! ## Broadcast fan-out (routes.ts 714-740) -/

/-- `WebSocket.OPEN` ready-state constant. -/
def wsOPEN : Nat := 1

/-- A connection in the server's `clients` set: an identity and its
`readyState`. -/
structure WsClient where
  cid : Nat
  readyState : Nat
deriving DecidableEq, Repr

/-- routes.ts 733-740, `broadcastToClients`: iterate the clients set and send
the serialized message to every client whose `readyState` is OPEN. The result
is the list of performed sends `(client id, message)`. -/
def broadcastToClients (clients : List WsClient) (msg : WsMessage) :
    List (Nat × WsMessage) :=
  (clients.filter (fun c => c.readyState == wsOPEN)).map (fun c => (c.cid, msg))

/-- How many of `sends` went to connection `cid`. -/
def deliveriesTo (sends : List (Nat × WsMessage)) (cid : Nat) : Nat :=
  (sends.filter (fun s => s.1 == cid)).length

/-! ## Client-side reconciler (`JobPopup`, src/unnamed/part_000) -/

/-- part_000 100-108 (and 368-376): the click cycle
pending → cut → skip → pending; anything else falls to pending. -/
def cycleStatus (s : String) : String :=
  if s == "pending" then "cut"
  else if s == "cut" then "skip"
  else "pending"

/-- Client-side view of one (entity, sheetIndex) cell: the optimistic entry
`optimisticSheetStatuses[id]?.[index]` and the cached server value
`material.sheetStatuses?.[index]` (absent when the index is beyond the fetched
array). -/
structure CellView where
  optimistic : Option String
  server : Option String
deriving DecidableEq, Repr

/-- part_000 236: `serverStatus = material.sheetStatuses?.[index] || 'pending'`. -/
def CellView.serverStatus (c : CellView) : String :=
  c.server.getD "pending"

/-- part_000 237: `status = optimisticStatus !== undefined ? optimisticStatus
: serverStatus` — the status the UI displays for this cell. -/
def CellView.displayed (c : CellView) : String :=
  match c.optimistic with
  | some s => s
  | none => c.serverStatus

/-- part_000 54-66, `onMutate`: write the new status into the optimistic map
immediately and return the rollback context, `previousStatus` being the prior
optimistic entry for the cell (possibly absent). -/
def onMutate (c : CellView) (status : String) : CellView × Option String :=
  ({ c with optimistic := some status }, c.optimistic)

/-- part_000 67-70, `onSuccess`, plus the refetch it triggers: the query cache
is replaced by the authoritative value for the cell; the optimistic map is not
modified. -/
def onSuccessRefetch (c : CellView) (authoritative : Option String) : CellView :=
  { c with server := authoritative }

/-- part_000 71-90, `onError`: write `context.previousStatus || 'pending'`
back into the optimistic map and show a destructive toast (the returned `true`
records that the error notification was shown). -/
def onError (c : CellView) (previousStatus : Option String) : CellView × Bool :=
  ({ c with optimistic := some (previousStatus.getD "pending") }, true)

/-- part_000 93-112, `handleSheetClick`: the actual status is the optimistic
entry when defined, else the passed current (displayed) status; the new status
is its cycle successor, and one mutation request with it is issued. -/
def handleSheetClick (optimistic : Option String) (currentStatus : String) : String :=
  cycleStatus (optimistic.getD currentStatus)

/-- The sheet button (part_000 238-266): it is rendered with
`disabled={updateSheetMutation.isPending}`, so a click while a request is in
flight runs no handler and issues no request (`none`); otherwise
`handleSheetClick` issues exactly one request (`some newStatus`). -/
def sheetButtonClick (isPending : Bool) (optimistic : Option String)
    (displayedStatus : String) : Option String :=
  if isPending then none
  else some (handleSheetClick optimistic displayedStatus)

/-- One full click on a cell when the button is enabled: compute the new
status from the displayed one (the button's onClick passes the displayed
status into `handleSheetClick`), apply the optimistic write, and return the
new view, the rollback context, and the requested status. -/
def clickCell (c : CellView) : CellView × Option String × String :=
  let newStatus := handleSheetClick c.optimistic c.displayed
  let p := onMutate c newStatus
  (p.1, p.2, newStatus)

/-- A store with one material, id 5, six pending sheets (the spec §8 scenario
shape), used as a concrete evaluation point. -/
def demoStore : Store :=
  { materials := [(5, createMaterial 6)]
    recuts := [(1, createRecut 5 2)]
    nextRecutId := 2 }

/-- The store after the spec §8 scenario step: sheet 2 of material 5 set to
"cut". -/
def demoStoreCut2 : Store :=
  { materials := [(5, ⟨6, 1, ["pending", "pending", "cut", "pending", "pending", "pending"]⟩)]
    recuts := [(1, createRecut 5 2)]
    nextRecutId := 2 }

/-! ## Helper lemmas -/

theorem countCut_replicate_pending (n : Nat) :
    countCut (List.replicate n "pending") = 0 := by
  induction n with
  | zero => rfl
  | succ k ih =>
    rw [List.replicate_succ]
    simp only [countCut, List.countP_cons] at *
    simp [ih]

theorem countCut_append (xs ys : List String) :
    countCut (xs ++ ys) = countCut xs + countCut ys := by
  simp [countCut, List.countP_append]

theorem deliveriesTo_broadcastToClients (clients : List WsClient) (msg : WsMessage)
    (cid : Nat) :
    deliveriesTo (broadcastToClients clients msg) cid =
      clients.countP (fun x => (x.cid == cid) && (x.readyState == wsOPEN)) := by
  unfold deliveriesTo broadcastToClients
  rw [← List.countP_eq_length_filter, List.countP_map, List.countP_filter]
  rfl

theorem countP_cid_nodup (p : WsClient → Bool) (c : WsClient) :
    ∀ clients : List WsClient, (clients.map WsClient.cid).Nodup → c ∈ clients →
      clients.countP (fun x => (x.cid == c.cid) && p x) = if p c then 1 else 0 := by
  intro clients
  induction clients with
  | nil => intro _ hmem; cases hmem
  | cons hd tl ih =>
    intro hnodup hmem
    simp only [List.map_cons, List.nodup_cons] at hnodup
    obtain ⟨hnotin, hnd⟩ := hnodup
    rw [List.countP_cons]
    rcases List.mem_cons.mp hmem with rfl | hmemtl
    · have hzero : tl.countP (fun x => (x.cid == c.cid) && p x) = 0 := by
        rw [List.countP_eq_zero]
        intro x hx
        simp only [Bool.and_eq_true, beq_iff_eq, not_and]
        intro hcid _
        exact hnotin (hcid ▸ List.mem_map_of_mem WsClient.cid hx)
      rw [hzero]
      simp
    · have hne : hd.cid ≠ c.cid := by
        intro hEq
        exact hnotin (hEq ▸ List.mem_map_of_mem WsClient.cid hmemtl)
      have : ((hd.cid == c.cid) && p hd) = false := by
        simp [hne]
      rw [this, ih hnd hmemtl]
      simp

theorem countP_cid_absent (p : WsClient → Bool) (cid : Nat)
    (clients : List WsClient) (h : cid ∉ clients.map WsClient.cid) :
    clients.countP (fun x => (x.cid == cid) && p x) = 0 := by
  rw [List.countP_eq_zero]
  intro x hx
  simp only [Bool.and_eq_true, beq_iff_eq, not_and]
  intro hcid _
  exact h (hcid ▸ List.mem_map_of_mem WsClient.cid hx)

/-! ## Claims -/

/-- C8: the client-side cycle function applied three times to "pending"
returns "pending", along the path pending → cut → skip → pending
(`handleSheetClick` / `handleRecutSheetClick` in part_000). -/
theorem cycle_three_from_pending :
    cycleStatus "pending" = "cut" ∧ cycleStatus "cut" = "skip" ∧
    cycleStatus "skip" = "pending" ∧
    cycleStatus (cycleStatus (cycleStatus "pending")) = "pending" := by
  decide

/-- C1: the length invariant `sheetStatuses.length = totalSheets` is
established by material creation and preserved by add-sheets and delete-sheet
(storage layer modelled from the spec, route guard from routes.ts). -/
theorem length_invariant_preserved :
    (∀ n : Nat, (createMaterial n).lengthInv) ∧
    (∀ (m : Material) (c : Nat), m.lengthInv → (m.addSheets c).lengthInv) ∧
    (∀ (m : Material) (i : Nat) (m' : Material),
      m.lengthInv → m.deleteSheet i = .ok m' → m'.lengthInv) := by
  refine ⟨fun n => ?_, fun m c h => ?_, fun m i m' h hok => ?_⟩
  · simp [createMaterial, Material.lengthInv]
  · simp only [Material.lengthInv, Material.addSheets, List.length_append,
      List.length_replicate] at *
    omega
  · unfold Material.deleteSheet at hok
    split at hok
    · rename_i hlt
      simp only [Except.ok.injEq] at hok
      subst hok
      simp only [Material.lengthInv] at *
      have := List.length_eraseIdx_add_one (l := m.sheetStatuses) (i := i) (by omega)
      omega
    · exact absurd hok (by simp)

/-- C1 witness: the invariant holds concretely after creating a six-sheet
material, after adding three sheets to it, and after deleting its sheet 2. -/
theorem length_invariant_preserved_witness :
    ((createMaterial 6).addSheets 3).lengthInv ∧
    (Material.mk 5 0 (List.replicate 5 "pending")).lengthInv :=
  ⟨length_invariant_preserved.2.1 (createMaterial 6) 3 (by decide),
   length_invariant_preserved.2.2 (createMaterial 6) 2
     (Material.mk 5 0 (List.replicate 5 "pending")) (by decide) (by decide)⟩

/-- C2: the derived-count invariant `completedSheets = count(sheetStatuses ==
"cut")` is established by material/recut creation and preserved by every
sheet-status mutation: set-sheet-status, add-sheets, delete-sheet, and
set-recut-sheet-status (storage layer modelled from the spec). -/
theorem completed_count_invariant :
    (∀ n : Nat, (createMaterial n).countInv) ∧
    (∀ mid q : Nat, (createRecut mid q).countInv) ∧
    (∀ (m : Material) (i : Nat) (s : String) (m' : Material),
      m.setSheetStatus i s = .ok m' → m'.countInv) ∧
    (∀ (m : Material) (c : Nat), m.countInv → (m.addSheets c).countInv) ∧
    (∀ (m : Material) (i : Nat) (m' : Material),
      m.deleteSheet i = .ok m' → m'.countInv) ∧
    (∀ (r : Recut) (i : Nat) (s : String) (r' : Recut),
      r.setSheetStatus i s = .ok r' → r'.countInv) := by
  refine ⟨fun n => ?_, fun mid q => ?_, fun m i s m' hok => ?_,
    fun m c h => ?_, fun m i m' hok => ?_, fun r i s r' hok => ?_⟩
  · simp [createMaterial, Material.countInv, countCut_replicate_pending]
  · simp [createRecut, Recut.countInv, countCut_replicate_pending]
  · unfold Material.setSheetStatus at hok
    split at hok
    · split at hok
      · simp only [Except.ok.injEq] at hok
        subst hok
        simp [Material.countInv]
      · exact absurd hok (by simp)
    · exact absurd hok (by simp)
  · simp only [Material.countInv, Material.addSheets] at *
    rw [countCut_append, countCut_replicate_pending, h]
    omega
  · unfold Material.deleteSheet at hok
    split at hok
    · simp only [Except.ok.injEq] at hok
      subst hok
      simp [Material.countInv]
    · exact absurd hok (by simp)
  · unfold Recut.setSheetStatus at hok
    split at hok
    · split at hok
      · simp only [Except.ok.injEq] at hok
        subst hok
        simp [Recut.countInv]
      · exact absurd hok (by simp)
    · exact absurd hok (by simp)

/-- C3 counterexample: at concrete inputs exercising all three failure kinds
(absent material 99, out-of-range index 9, invalid status "bogus"), the PUT
sheet-status route answers the identical `500 "Failed to update sheet status"`
response — the kinds are not distinguishable in the response. -/
theorem error_kinds_not_distinguishable :
    demoStore.updateSheetStatus 99 0 "cut" = .error .NotFound ∧
    demoStore.updateSheetStatus 5 9 "cut" = .error .OutOfRange ∧
    demoStore.updateSheetStatus 5 0 "bogus" = .error .InvalidArgument ∧
    (putMaterialSheetStatus demoStore 99 0 "cut").response =
      (putMaterialSheetStatus demoStore 5 9 "cut").response ∧
    (putMaterialSheetStatus demoStore 5 9 "cut").response =
      (putMaterialSheetStatus demoStore 5 0 "bogus").response := by
  decide

/-- C3 amended: every failing set-sheet-status call — whatever the failure
kind — is answered with the same catch-all `500 "Failed to update sheet
status"` response, on both the PUT and the POST route. -/
theorem failed_update_uniform_response (st : Store) (id i : Nat) (s : String)
    (e : StoreError) (h : st.updateSheetStatus id i s = .error e) :
    (putMaterialSheetStatus st id i s).response = ⟨500, "Failed to update sheet status"⟩ ∧
    (postMaterialSheetStatus st id i s).response = ⟨500, "Failed to update sheet status"⟩ := by
  unfold putMaterialSheetStatus postMaterialSheetStatus
  rw [h]
  exact ⟨rfl, rfl⟩

/-- C3 amended witness: the uniform 500 response at a concrete NotFound
input. -/
theorem failed_update_uniform_response_witness :
    (putMaterialSheetStatus demoStore 99 0 "cut").response =
      ⟨500, "Failed to update sheet status"⟩ ∧
    (postMaterialSheetStatus demoStore 99 0 "cut").response =
      ⟨500, "Failed to update sheet status"⟩ :=
  failed_update_uniform_response demoStore 99 0 "cut" .NotFound (by decide)

/-- C9: an add-sheets or add-recut request whose count is absent or below one
is rejected with a 400 response before any storage call: the store is
unchanged and no broadcast is emitted. -/
theorem nonpositive_count_rejected (st : Store) (id : Nat) (o : Option Int)
    (isRecut : Bool) (reason : Option String)
    (h : o = none ∨ ∃ n : Int, o = some n ∧ n < 1) :
    ((postAddSheets st id o isRecut).response.status = 400 ∧
     (postAddSheets st id o isRecut).store = st ∧
     (postAddSheets st id o isRecut).broadcasts = []) ∧
    ((postAddRecut st id o reason).response.status = 400 ∧
     (postAddRecut st id o reason).store = st ∧
     (postAddRecut st id o reason).broadcasts = []) := by
  rcases h with rfl | ⟨n, rfl, hn⟩
  · exact ⟨⟨rfl, rfl, rfl⟩, ⟨rfl, rfl, rfl⟩⟩
  · have hcond : (n = 0 ∨ n < 1) := Or.inr hn
    simp [postAddSheets, postAddRecut, if_pos hcond]

/-- C9 witness: the rejection at the concrete count −3 (and, via the `none`
case being part of the hypothesis, an absent count behaves the same). -/
theorem nonpositive_count_rejected_witness :
    ((postAddSheets demoStore 5 (some (-3)) false).response.status = 400 ∧
     (postAddSheets demoStore 5 (some (-3)) false).store = demoStore ∧
     (postAddSheets demoStore 5 (some (-3)) false).broadcasts = []) ∧
    ((postAddRecut demoStore 5 (some (-3)) none).response.status = 400 ∧
     (postAddRecut demoStore 5 (some (-3)) none).store = demoStore ∧
     (postAddRecut demoStore 5 (some (-3)) none).broadcasts = []) :=
  nonpositive_count_rejected demoStore 5 (some (-3)) false none
    (Or.inr ⟨-3, rfl, by decide⟩)

/-- C10: each of the five status-mutation endpoints is registered behind
`requireAuth`, so an unauthenticated request is answered 401 "Authentication
required" with the store untouched and no broadcast; the recut-list GET has no
session check — its result is the same under every session. -/
theorem auth_gating (sess : Session) (st : Store) (id i : Nat) (s : String)
    (o : Option Int) (b : Bool) (r : Option String) (h : sess.user = none) :
    apiPutMaterialSheetStatus sess st id i s =
      ⟨⟨401, "Authentication required"⟩, st, []⟩ ∧
    apiPutRecutSheetStatus sess st id i s =
      ⟨⟨401, "Authentication required"⟩, st, []⟩ ∧
    apiPostAddSheets sess st id o b = ⟨⟨401, "Authentication required"⟩, st, []⟩ ∧
    apiPostAddRecut sess st id o r = ⟨⟨401, "Authentication required"⟩, st, []⟩ ∧
    apiDeleteSheet sess st id i = ⟨⟨401, "Authentication required"⟩, st, []⟩ ∧
    (∀ sess2 : Session, apiGetMaterialRecuts sess st id = apiGetMaterialRecuts sess2 st id) := by
  refine ⟨?_, ?_, ?_, ?_, ?_, fun sess2 => rfl⟩ <;>
    simp [apiPutMaterialSheetStatus, apiPutRecutSheetStatus, apiPostAddSheets,
      apiPostAddRecut, apiDeleteSheet, withAuth, requireAuth, h]

/-- C10 witness: concretely, with no session user, the PUT sheet-status call
(and the other four) answer 401 and leave the demo store unchanged. -/
theorem auth_gating_witness :
    apiPutMaterialSheetStatus ⟨none⟩ demoStore 5 2 "cut" =
      ⟨⟨401, "Authentication required"⟩, demoStore, []⟩ ∧
    apiPutRecutSheetStatus ⟨none⟩ demoStore 5 2 "cut" =
      ⟨⟨401, "Authentication required"⟩, demoStore, []⟩ ∧
    apiPostAddSheets ⟨none⟩ demoStore 5 (some 3) false =
      ⟨⟨401, "Authentication required"⟩, demoStore, []⟩ ∧
    apiPostAddRecut ⟨none⟩ demoStore 5 (some 3) none =
      ⟨⟨401, "Authentication required"⟩, demoStore, []⟩ ∧
    apiDeleteSheet ⟨none⟩ demoStore 5 2 =
      ⟨⟨401, "Authentication required"⟩, demoStore, []⟩ ∧
    (∀ sess2 : Session, apiGetMaterialRecuts ⟨none⟩ demoStore 5 =
      apiGetMaterialRecuts sess2 demoStore 5) :=
  auth_gating ⟨none⟩ demoStore 5 2 "cut" (some 3) false none rfl

/-- C4 counterexample: the successful PUT `/api/materials/:id/sheet-status`
call broadcasts the material id under the field "id"; at materialId 5,
sheetIndex 2, status "cut", its payload has no "materialId" field. -/
theorem broadcast_payload_lacks_materialId :
    (putMaterialSheetStatus demoStore 5 2 "cut").response.status = 200 ∧
    (putMaterialSheetStatus demoStore 5 2 "cut").broadcasts =
      [⟨"sheet_status_updated", [("id", "5"), ("sheetIndex", "2"), ("status", "cut")]⟩] ∧
    ((putMaterialSheetStatus demoStore 5 2 "cut").broadcasts.map
      (fun m => m.data.lookup "materialId")) = [none] := by
  decide

/-- C4 amended: a successful PUT sheet-status call emits exactly one broadcast
of type `sheet_status_updated`, whose payload carries the material id under
the field "id" (not "materialId") plus sheetIndex and status; the fan-out
sends it exactly once to each connection whose readyState is OPEN at broadcast
time, and a connection that closed beforehand — readyState no longer OPEN, or
already removed from the set — receives nothing. -/
theorem sheet_status_broadcast_delivery (st st2 : Store) (id i : Nat) (s : String)
    (clients : List WsClient) (c : WsClient)
    (hok : st.updateSheetStatus id i s = .ok st2)
    (hnodup : (clients.map WsClient.cid).Nodup) :
    (putMaterialSheetStatus st id i s).broadcasts.length = 1 ∧
    (∀ msg ∈ (putMaterialSheetStatus st id i s).broadcasts,
      msg.type = "sheet_status_updated" ∧
      msg.data.lookup "id" = some (toString id) ∧
      msg.data.lookup "sheetIndex" = some (toString i) ∧
      msg.data.lookup "status" = some s ∧
      msg.data.lookup "materialId" = none ∧
      (c ∈ clients →
        deliveriesTo (broadcastToClients clients msg) c.cid =
          if c.readyState = wsOPEN then 1 else 0) ∧
      (c.cid ∉ clients.map WsClient.cid →
        deliveriesTo (broadcastToClients clients msg) c.cid = 0)) := by
  unfold putMaterialSheetStatus
  rw [hok]
  refine ⟨rfl, ?_⟩
  intro msg hmsg
  simp only [List.mem_singleton] at hmsg
  subst hmsg
  refine ⟨rfl, ?_, ?_, ?_, ?_, ?_, ?_⟩
  · simp [List.lookup]
  · simp [List.lookup]
  · simp [List.lookup]
  · simp [List.lookup]
  · intro hmem
    rw [deliveriesTo_broadcastToClients,
      countP_cid_nodup (fun x => x.readyState == wsOPEN) c clients hnodup hmem]
    by_cases h : c.readyState = wsOPEN <;> simp [h]
  · intro habs
    rw [deliveriesTo_broadcastToClients,
      countP_cid_absent (fun x => x.readyState == wsOPEN) c.cid clients habs]

/-- C4 amended witness: the concrete spec §8 broadcast scenario — material 5,
sheet 2 set to "cut", two connections of which one is open: exactly one
broadcast is emitted and the open connection receives it exactly once. -/
theorem sheet_status_broadcast_delivery_witness :
    (putMaterialSheetStatus demoStore 5 2 "cut").broadcasts.length = 1 ∧
    deliveriesTo (broadcastToClients [⟨1, wsOPEN⟩, ⟨2, 0⟩]
      ⟨"sheet_status_updated", [("id", "5"), ("sheetIndex", "2"), ("status", "cut")]⟩) 1 = 1 := by
  have h := sheet_status_broadcast_delivery demoStore demoStoreCut2 5 2 "cut"
    [⟨1, wsOPEN⟩, ⟨2, 0⟩] ⟨1, wsOPEN⟩ (by decide) (by decide)
  refine ⟨h.1, ?_⟩
  have h2 := h.2 ⟨"sheet_status_updated", [("id", "5"), ("sheetIndex", "2"), ("status", "cut")]⟩
    (by decide)
  have h3 := h2.2.2.2.2.2.1 (by decide)
  simpa using h3

/-- C5 counterexample: the cell starts with no optimistic entry and server
value "pending"; a mutation to "cut" succeeds, and the refetch returns an
authoritative "skip" (a concurrent conflicting write); the cell still displays
the optimistic "cut" — the optimistic entry is never cleared and keeps
shadowing server truth. -/
theorem optimistic_entry_keeps_shadowing :
    (onSuccessRefetch (onMutate ⟨none, some "pending"⟩ "cut").1 (some "skip")).displayed = "cut" ∧
    (onSuccessRefetch (onMutate ⟨none, some "pending"⟩ "cut").1 (some "skip")).serverStatus = "skip" ∧
    (onSuccessRefetch (onMutate ⟨none, some "pending"⟩ "cut").1 (some "skip")).displayed ≠
      (onSuccessRefetch (onMutate ⟨none, some "pending"⟩ "cut").1 (some "skip")).serverStatus := by
  decide

/-- C5 amended: the optimistic entry persists across success + refetch, so the
displayed status equals the status the mutation sent (not, in general, the
refetched server value); the two agree exactly in the no-conflict case, when
the refetched authoritative value equals the mutated status. -/
theorem display_after_success_refetch (c : CellView) (s : String) (auth : Option String) :
    (onSuccessRefetch (onMutate c s).1 auth).displayed = s ∧
    (auth = some s →
      (onSuccessRefetch (onMutate c s).1 auth).displayed =
        (onSuccessRefetch (onMutate c s).1 auth).serverStatus) := by
  refine ⟨rfl, ?_⟩
  rintro rfl
  rfl

/-- C5 amended witness: at the concrete no-conflict point (mutation to "cut",
authoritative refetch also "cut") the display equals both the sent status and
the server value. -/
theorem display_after_success_refetch_witness :
    (onSuccessRefetch (onMutate ⟨none, some "pending"⟩ "cut").1 (some "cut")).displayed = "cut" ∧
    (onSuccessRefetch (onMutate ⟨none, some "pending"⟩ "cut").1 (some "cut")).displayed =
      (onSuccessRefetch (onMutate ⟨none, some "pending"⟩ "cut").1 (some "cut")).serverStatus :=
  ⟨(display_after_success_refetch ⟨none, some "pending"⟩ "cut" (some "cut")).1,
   (display_after_success_refetch ⟨none, some "pending"⟩ "cut" (some "cut")).2 rfl⟩

/-- C6 counterexample: a cell displaying the server value "cut" with no
optimistic entry; the click requests "skip"; the request fails, and the
rollback writes `context.previousStatus || 'pending'` = "pending" — the cell
now displays "pending", not the pre-click "cut" (the error toast is shown). -/
theorem failed_update_rollback_not_preclick :
    (⟨none, some "cut"⟩ : CellView).displayed = "cut" ∧
    (clickCell ⟨none, some "cut"⟩).2.2 = "skip" ∧
    (onError (clickCell ⟨none, some "cut"⟩).1 (clickCell ⟨none, some "cut"⟩).2.1).1.displayed
      = "pending" ∧
    (onError (clickCell ⟨none, some "cut"⟩).1 (clickCell ⟨none, some "cut"⟩).2.1).1.displayed
      ≠ "cut" ∧
    (onError (clickCell ⟨none, some "cut"⟩).1 (clickCell ⟨none, some "cut"⟩).2.1).2 = true := by
  decide

/-- C6 amended: on a failure response the optimistic entry is set to the prior
optimistic value recorded at click time when one existed, and to "pending"
otherwise (which need not be the pre-click displayed value); the error toast
is always shown; when a prior optimistic entry did exist, the display does
revert to the pre-click displayed value. -/
theorem failed_update_rollback (c : CellView) :
    (onError (clickCell c).1 (clickCell c).2.1).1.optimistic =
      some (c.optimistic.getD "pending") ∧
    (onError (clickCell c).1 (clickCell c).2.1).2 = true ∧
    (∀ s : String, c.optimistic = some s →
      (onError (clickCell c).1 (clickCell c).2.1).1.displayed = c.displayed) := by
  refine ⟨rfl, rfl, ?_⟩
  intro s hs
  simp [clickCell, onMutate, onError, CellView.displayed, hs]

/-- C6 amended witness: with a prior optimistic entry "cut", a failed click
rolls the cell back to displaying "cut", its pre-click displayed value, and
shows the toast. -/
theorem failed_update_rollback_witness :
    (onError (clickCell ⟨some "cut", none⟩).1 (clickCell ⟨some "cut", none⟩).2.1).1.optimistic
      = some "cut" ∧
    (onError (clickCell ⟨some "cut", none⟩).1 (clickCell ⟨some "cut", none⟩).2.1).2 = true ∧
    (onError (clickCell ⟨some "cut", none⟩).1 (clickCell ⟨some "cut", none⟩).2.1).1.displayed
      = (⟨some "cut", none⟩ : CellView).displayed :=
  ⟨(failed_update_rollback ⟨some "cut", none⟩).1,
   (failed_update_rollback ⟨some "cut", none⟩).2.1,
   (failed_update_rollback ⟨some "cut", none⟩).2.2 "cut" rfl⟩

/-- C7 counterexample: while a mutation is in flight the sheet button is
rendered `disabled={updateSheetMutation.isPending}`, so a click on it runs no
handler and issues no request — a click made while a prior request is still in
flight IS suppressed (when idle the same click issues its request). -/
theorem click_while_pending_suppressed :
    sheetButtonClick true (some "cut") "cut" = none ∧
    sheetButtonClick false (some "cut") "cut" = some "skip" := by
  decide

/-- C7 amended: when no request is in flight, each click computes its next
status by cycling the latest optimistic value (falling back to the passed
displayed status) and issues exactly one request carrying it — no coalescing
or debouncing; while a request is in flight, the button is disabled and the
click issues nothing. -/
theorem click_request_behavior (opt : Option String) (cur : String) :
    sheetButtonClick false opt cur = some (cycleStatus (opt.getD cur)) ∧
    sheetButtonClick true opt cur = none :=
  ⟨rfl, rfl⟩

/-- C2 witness: concretely, after setting sheet 2 of the six-sheet material to
"cut", after adding three sheets, after deleting a sheet, and after setting a
recut sheet, the derived count matches the number of "cut" entries. -/
theorem completed_count_invariant_witness :
    (Material.mk 6 1 ["pending", "pending", "cut", "pending", "pending", "pending"]).countInv ∧
    ((createMaterial 6).addSheets 3).countInv ∧
    (Material.mk 5 0 (List.replicate 5 "pending")).countInv ∧
    (Recut.mk 5 2 1 ["cut", "pending"]).countInv :=
  ⟨completed_count_invariant.2.2.1 (createMaterial 6) 2 "cut"
      (Material.mk 6 1 ["pending", "pending", "cut", "pending", "pending", "pending"])
      (by decide),
   completed_count_invariant.2.2.2.1 (createMaterial 6) 3 (by decide),
   completed_count_invariant.2.2.2.2.1 (createMaterial 6) 2
      (Material.mk 5 0 (List.replicate 5 "pending")) (by decide),
   completed_count_invariant.2.2.2.2.2 (createRecut 5 2) 0 "cut"
      (Recut.mk 5 2 1 ["cut", "pending"]) (by decide)⟩

end CNC
